import Mathlib

/-!
Shallow embedding of `src/timber_mcp_protocol_server.py`, the JSON-RPC MCP
protocol server of the Timber Troubleshooting AI Assistant, together with
theorems settling the behavioural claims about its dispatcher, backend
client and session loop.

Modelling conventions:
* JSON values decoded by `json.loads` are modelled by the inductive `JValue`;
  a Python dict is a `jobj` field list, numbers are rationals.
* The Python methods `d.get(key)` / `d.get(key, default)` raise `AttributeError` when
  the receiver is not a dict; this is modelled by `Except String` results
  (`pyGet` / `pyGetD`).
* The two external Bedrock endpoints (`bedrock_agent_runtime.retrieve` and
  `bedrock_runtime.invoke_model`) are oracles in a `Bedrock` structure;
  an `Except.error` models any exception raised by the call (including a
  malformed API response, whose key lookups would raise inside the same
  `try` block).  The embedding additionally records the list of external
  calls issued (`ExtCall`), so that short-circuit claims can be stated.
* `json.loads` itself is an oracle `parseJson : String → Option JValue`;
  `none` models `json.JSONDecodeError`.
-/

namespace Timber

/-- A decoded JSON value (the result of `json.loads`). -/
inductive JValue where
  | jnull
  | jbool (b : Bool)
  | jnum (q : ℚ)
  | jstr (s : String)
  | jarr (elems : List JValue)
  | jobj (fields : List (String × JValue))
  deriving Repr

/-- First binding of a key in a field list (Python dicts decoded from JSON
have unique keys, so first and last bindings coincide). -/
def lookupField : List (String × JValue) → String → Option JValue
  | [], _ => none
  | (k, v) :: rest, key => if k = key then some v else lookupField rest key

/-- Python `d.get(key)`: `None` when the key is absent, `AttributeError`
when the receiver is not a dict. -/
def JValue.pyGet : JValue → String → Except String JValue
  | .jobj fields, key => .ok ((lookupField fields key).getD .jnull)
  | _, _ => .error "AttributeError"

/-- Python `d.get(key, default)`. -/
def JValue.pyGetD : JValue → String → JValue → Except String JValue
  | .jobj fields, key, dflt => .ok ((lookupField fields key).getD dflt)
  | _, _, _ => .error "AttributeError"

/-- `True` iff the value is a dict carrying the key. -/
def hasField (v : JValue) (key : String) : Bool :=
  match v with
  | .jobj fields => (lookupField fields key).isSome
  | _ => false

/-- Conversion applied when a decoded value is interpolated into an
f-string (Python `str`).  On the string values the dispatcher actually
passes around this is the identity; scalar cases follow Python `str`;
the rendering of containers is abbreviated (no claim depends on it). -/
def pyFStr : JValue → String
  | .jstr s => s
  | .jnull => "None"
  | .jbool true => "True"
  | .jbool false => "False"
  | .jnum q => toString q
  | .jarr _ => "[...]"
  | .jobj _ => "\x7b...\x7d"

/-- The dict returned by `MCPServer.query_knowledge_base` (keys `response`,
`source`, `confidence` and, on the successful live path, `retrieved_count`). -/
structure AnswerRecord where
  response : String
  source : String
  confidence : ℚ
  retrieved_count : Option ℕ
  deriving Repr, DecidableEq

/-- One external Bedrock call issued by `query_knowledge_base`, with the
arguments the source passes (`numberOfResults` for retrieval, `max_tokens`
for generation). -/
inductive ExtCall where
  | retrieve (knowledgeBaseId : String) (queryText : String) (numberOfResults : ℕ)
  | invokeModel (modelId : String) (maxTokens : ℕ) (prompt : String)
  deriving Repr, DecidableEq

/-- Oracles for the two external endpoints.  `retrieve` yields the texts of
the retrieved passages (`retrievalResults[i].content.text`); `invokeModel`
yields the texts of the generated content segments (`content[i].text`).
An `Except.error e` models an exception with `str(e) = e`. -/
structure Bedrock where
  retrieve : String → String → ℕ → Except String (List String)
  invokeModel : String → ℕ → String → Except String (List String)

/-- Startup configuration (lines 23-25 of the source): mode flag,
knowledge-base id, model id.  `localMode = true` is Simulated mode. -/
structure Config where
  localMode : Bool
  knowledgeBaseId : String
  modelId : String

/-- `"Document {i+1}: {text}"` (line 84). -/
def documentLabel (i : ℕ) (text : String) : String :=
  "Document " ++ toString (i + 1) ++ ": " ++ text

/-- Lines 83-86: the context block joining the retrieved passages, each
labeled by its ordinal position. -/
def buildContext (passages : List String) : String :=
  String.intercalate "\n\n" (passages.enum.map (fun p => documentLabel p.1 p.2))

/-- Lines 89-94: the single-turn instruction prompt embedding the query and
the context block. -/
def buildPrompt (query context : String) : String :=
  "Based on the following Timber documentation, answer the user\x27s question: \"" ++
    query ++ "\"\n\nDocumentation:\n" ++ context ++
    "\n\nPlease provide a helpful and accurate answer based on the documentation provided."

/-- Lines 117-121: the record produced by the `except` branch of
`query_knowledge_base`. -/
def errorAnswer (e : String) : AnswerRecord :=
  { response := "Error querying knowledge base: " ++ e
    source := "error"
    confidence := 0
    retrieved_count := none }

/-- Lines 76-80: the record for an empty retrieval result. -/
def noResultsAnswer : AnswerRecord :=
  { response := "No relevant information found in the Timber knowledge base."
    source := "knowledge_base"
    confidence := 0
    retrieved_count := none }

/-- Lines 60-64: the Simulated-mode record. -/
def simulatedAnswer (query : String) : AnswerRecord :=
  { response := "[LOCAL MODE] Simulated response for: " ++ query
    source := "local_simulation"
    confidence := 8/10
    retrieved_count := none }

/-- `MCPServer.query_knowledge_base` (lines 57-121), instrumented with the
list of external calls it issues.  In live mode every step sits inside one
`try` block, so an oracle error short-circuits to `errorAnswer`; an empty
generation `content` list would make `content[0]` raise `IndexError`
inside the same block, hence also yields `errorAnswer`. -/
def query_knowledge_base (cfg : Config) (bedrock : Bedrock) (query : String) :
    AnswerRecord × List ExtCall :=
  if cfg.localMode then
    (simulatedAnswer query, [])
  else
    let rc : ExtCall := .retrieve cfg.knowledgeBaseId query 5
    match bedrock.retrieve cfg.knowledgeBaseId query 5 with
    | .error e => (errorAnswer e, [rc])
    | .ok retrievedResults =>
      match retrievedResults with
      | [] => (noResultsAnswer, [rc])
      | p :: ps =>
        let context := buildContext (p :: ps)
        let prompt := buildPrompt query context
        let gc : ExtCall := .invokeModel cfg.modelId 1000 prompt
        match bedrock.invokeModel cfg.modelId 1000 prompt with
        | .error e => (errorAnswer e, [rc, gc])
        | .ok segments =>
          match segments with
          | [] => (errorAnswer "list index out of range", [rc, gc])
          | t :: _ =>
            ({ response := t
               source := "knowledge_base"
               confidence := 9/10
               retrieved_count := some (p :: ps).length }, [rc, gc])

/-- Lines 40-55: the static tool registry built in `MCPServer.__init__`. -/
def toolDescriptor : JValue :=
  .jobj [("name", .jstr "query_timber_kb"),
         ("description", .jstr "Query the Timber knowledge base for troubleshooting information"),
         ("inputSchema", .jobj
            [("type", .jstr "object"),
             ("properties", .jobj
                [("query", .jobj
                   [("type", .jstr "string"),
                    ("description", .jstr "The question or query about Timber")])]),
             ("required", .jarr [.jstr "query"])])]

/-- The registry `self.tools`: one entry, keyed by the tool name. -/
def tools : List (String × JValue) := [("query_timber_kb", toolDescriptor)]

/-- Lines 128-142: the `initialize` response. -/
def initializeResponse (idv : JValue) : JValue :=
  .jobj [("jsonrpc", .jstr "2.0"), ("id", idv),
         ("result", .jobj
            [("protocolVersion", .jstr "2024-11-05"),
             ("capabilities", .jobj [("tools", .jobj [])]),
             ("serverInfo", .jobj
                [("name", .jstr "bedrock-kb-retrieval"),
                 ("version", .jstr "1.0.0")])])]

/-- Lines 144-151: the `tools/list` response (`list(self.tools.values())`). -/
def toolsListResponse (idv : JValue) : JValue :=
  .jobj [("jsonrpc", .jstr "2.0"), ("id", idv),
         ("result", .jobj [("tools", .jarr (tools.map Prod.snd))])]

/-- Lines 161-173: the `tools/call` success envelope wrapping the answer
text in a single content block, `isError: false`. -/
def toolCallSuccessResponse (idv : JValue) (text : String) : JValue :=
  .jobj [("jsonrpc", .jstr "2.0"), ("id", idv),
         ("result", .jobj
            [("content", .jarr [.jobj [("type", .jstr "text"), ("text", .jstr text)]]),
             ("isError", .jbool false)])]

/-- Lines 176-183: the default protocol-level error,
`f"Method not found: {method}"`, code -32601. -/
def methodNotFoundResponse (idv : JValue) (method : JValue) : JValue :=
  .jobj [("jsonrpc", .jstr "2.0"), ("id", idv),
         ("error", .jobj
            [("code", .jnum (-32601)),
             ("message", .jstr ("Method not found: " ++ pyFStr method))])]

/-- `MCPServer.handle_request` (lines 123-183), instrumented with the
external calls made.  `Except.error` models an `AttributeError` escaping
the method: `request.get` on a non-dict request, `params.get` on a
non-dict `params`, or `arguments.get` on a non-dict `arguments` (the
latter two are only reached on the `tools/call` path, in source order). -/
def handle_request (cfg : Config) (bedrock : Bedrock) (request : JValue) :
    Except String (JValue × List ExtCall) :=
  match request with
  | .jobj rfields =>
    let idv := (lookupField rfields "id").getD .jnull
    let method := (lookupField rfields "method").getD .jnull
    let params := (lookupField rfields "params").getD (.jobj [])
    match method with
    | .jstr "initialize" => .ok (initializeResponse idv, [])
    | .jstr "tools/list" => .ok (toolsListResponse idv, [])
    | .jstr "tools/call" =>
      match params with
      | .jobj pfields =>
        let toolName := (lookupField pfields "name").getD .jnull
        let arguments := (lookupField pfields "arguments").getD (.jobj [])
        match toolName with
        | .jstr "query_timber_kb" =>
          match arguments with
          | .jobj afields =>
            let queryArg := (lookupField afields "query").getD (.jstr "")
            let rc := query_knowledge_base cfg bedrock (pyFStr queryArg)
            .ok (toolCallSuccessResponse idv rc.1.response, rc.2)
          | _ => .error "AttributeError"
        | _ => .ok (methodNotFoundResponse idv method, [])
      | _ => .error "AttributeError"
    | _ => .ok (methodNotFoundResponse idv method, [])
  | _ => .error "AttributeError"

/-- Lines 207-215: the parse-error envelope, correlation id `None`,
code -32700. -/
def parseErrorResponse : JValue :=
  .jobj [("jsonrpc", .jstr "2.0"), ("id", .jnull),
         ("error", .jobj [("code", .jnum (-32700)), ("message", .jstr "Parse error")])]

/-- Lines 219-226: the internal-error envelope, code -32603. -/
def internalErrorResponse (idv : JValue) : JValue :=
  .jobj [("jsonrpc", .jstr "2.0"), ("id", idv),
         ("error", .jobj [("code", .jnum (-32603)), ("message", .jstr "Internal error")])]

/-- Python `str.strip()`: the line with leading and trailing whitespace
removed (lines 195-197 strip the line and skip it when empty). -/
def pyStrip (s : String) : String :=
  String.mk (((s.data.dropWhile Char.isWhitespace).reverse.dropWhile
    Char.isWhitespace).reverse)

/-- Outcome of one iteration of the `while` loop in `MCPServer.run`. -/
inductive StepResult where
  | printed (response : JValue)
  | skipped
  | crashed
  deriving Repr

/-- One iteration of the session loop (lines 190-227) on one input line.
After `json.loads` succeeds, `request` is bound in `locals()`, so the
generic `except Exception` handler (lines 217-227) evaluates
`request.get("id")` on the just-parsed value: when that value is not a
dict this raises a second `AttributeError`, which escapes the inner
handlers to the outer `except Exception` (line 231) and `sys.exit(1)` —
modelled by `StepResult.crashed`. -/
def processLine (cfg : Config) (bedrock : Bedrock)
    (parseJson : String → Option JValue) (line : String) : StepResult :=
  let stripped := pyStrip line
  if stripped = "" then
    .skipped
  else
    match parseJson stripped with
    | none => .printed parseErrorResponse
    | some request =>
      match handle_request cfg bedrock request with
      | .ok rc => .printed rc.1
      | .error _ =>
        match request.pyGet "id" with
        | .ok idv => .printed (internalErrorResponse idv)
        | .error _ => .crashed

/-- The session loop over a finite input stream: the list of lines read
before end-of-stream.  Returns the responses printed to stdout and a flag
that is `true` for a clean exit (end-of-stream, exit code 0) and `false`
when the loop died through the outer handler (`sys.exit(1)`), in which
case the remaining lines are never read. -/
def runSession (cfg : Config) (bedrock : Bedrock)
    (parseJson : String → Option JValue) : List String → List JValue × Bool
  | [] => ([], true)
  | line :: rest =>
    match processLine cfg bedrock parseJson line with
    | .skipped => runSession cfg bedrock parseJson rest
    | .printed r =>
      let tail := runSession cfg bedrock parseJson rest
      (r :: tail.1, tail.2)
    | .crashed => ([], false)

/-- A `tools/call` request object with the given id and params. -/
def mkToolsCallReq (idv : JValue) (params : JValue) : JValue :=
  .jobj [("id", idv), ("method", .jstr "tools/call"), ("params", params)]

/-- Simulated-mode configuration (`LOCAL_MODE=true`, default ids). -/
def simCfg : Config :=
  { localMode := true
    knowledgeBaseId := "XQHHIEJ8MA"
    modelId := "anthropic.claude-3-haiku-20240307-v1:0" }

/-- Live-mode configuration (`LOCAL_MODE=false`, default ids). -/
def liveCfg : Config :=
  { localMode := false
    knowledgeBaseId := "XQHHIEJ8MA"
    modelId := "anthropic.claude-3-haiku-20240307-v1:0" }

/-- A backend whose endpoints always raise (never reached in Simulated
mode; used to witness error paths in Live mode). -/
def downBedrock : Bedrock :=
  { retrieve := fun _ _ _ => .error "endpoint unavailable"
    invokeModel := fun _ _ _ => .error "endpoint unavailable" }

/-- A backend whose retrieval endpoint returns zero passages. -/
def emptyKbBedrock : Bedrock :=
  { retrieve := fun _ _ _ => .ok []
    invokeModel := fun _ _ _ => .error "endpoint unavailable" }

/-- A backend returning two passages and one generated segment. -/
def twoDocBedrock : Bedrock :=
  { retrieve := fun _ _ _ => .ok ["passage one", "passage two"]
    invokeModel := fun _ _ _ => .ok ["generated answer"] }

/-- C5: In Simulated mode, for every query text, `query_knowledge_base`
returns immediately — the external-call trace is empty — with the
deterministic placeholder answer whose text contains the input text as a
substring, provenance `local_simulation`, and confidence exactly 0.8. -/
theorem C5_simulated_mode (cfg : Config) (bedrock : Bedrock) (query : String)
    (hsim : cfg.localMode = true) :
    query_knowledge_base cfg bedrock query =
      ({ response := "[LOCAL MODE] Simulated response for: " ++ query
         source := "local_simulation"
         confidence := 8/10
         retrieved_count := none }, []) ∧
    ∃ pre post : String,
      (query_knowledge_base cfg bedrock query).1.response = pre ++ query ++ post := by
  refine ⟨by simp [query_knowledge_base, hsim, simulatedAnswer], ?_⟩
  exact ⟨"[LOCAL MODE] Simulated response for: ", "",
    by simp [query_knowledge_base, hsim, simulatedAnswer]⟩

/-- Witness for C5 at the query `"ping"` in the Simulated configuration. -/
theorem C5_simulated_mode_witness :
    query_knowledge_base simCfg downBedrock "ping" =
      ({ response := "[LOCAL MODE] Simulated response for: " ++ "ping"
         source := "local_simulation"
         confidence := 8/10
         retrieved_count := none }, []) ∧
    ∃ pre post : String,
      (query_knowledge_base simCfg downBedrock "ping").1.response =
        pre ++ "ping" ++ post :=
  C5_simulated_mode simCfg downBedrock "ping" rfl

/-- C4: In Live mode, when retrieval returns zero passages,
`query_knowledge_base` answers "nothing found" with provenance
`knowledge_base` and confidence 0.0, and its external-call trace holds
only the retrieval call: the generation endpoint is never invoked. -/
theorem C4_empty_retrieval_short_circuit (cfg : Config) (bedrock : Bedrock)
    (query : String) (hlive : cfg.localMode = false)
    (hret : bedrock.retrieve cfg.knowledgeBaseId query 5 = .ok []) :
    query_knowledge_base cfg bedrock query =
      ({ response := "No relevant information found in the Timber knowledge base."
         source := "knowledge_base"
         confidence := 0
         retrieved_count := none }, [.retrieve cfg.knowledgeBaseId query 5]) ∧
    ∀ m k p, ExtCall.invokeModel m k p ∉ (query_knowledge_base cfg bedrock query).2 := by
  have h : query_knowledge_base cfg bedrock query =
      (noResultsAnswer, [.retrieve cfg.knowledgeBaseId query 5]) := by
    simp [query_knowledge_base, hlive, hret]
  refine ⟨by rw [h]; rfl, ?_⟩
  intro m k p
  rw [h]
  simp

/-- Witness for C4 with a backend whose retrieval returns zero passages. -/
theorem C4_empty_retrieval_short_circuit_witness :
    query_knowledge_base liveCfg emptyKbBedrock "anything" =
      ({ response := "No relevant information found in the Timber knowledge base."
         source := "knowledge_base"
         confidence := 0
         retrieved_count := none },
       [.retrieve liveCfg.knowledgeBaseId "anything" 5]) ∧
    ∀ m k p, ExtCall.invokeModel m k p ∉
      (query_knowledge_base liveCfg emptyKbBedrock "anything").2 :=
  C4_empty_retrieval_short_circuit liveCfg emptyKbBedrock "anything" rfl rfl

/-- C6: In Live mode with a non-empty retrieval result, the retrieval
call caps results at 5, the passages are joined into a context block each
labeled by its ordinal position, one prompt embedding the query and that
context goes to the generation endpoint with a 1000-token output cap, and
the answer carries the first generated segment, provenance
`knowledge_base`, confidence 0.9, and the retrieved-passage count. -/
theorem C6_live_generation (cfg : Config) (bedrock : Bedrock) (query : String)
    (p t : String) (ps ts : List String)
    (hlive : cfg.localMode = false)
    (hret : bedrock.retrieve cfg.knowledgeBaseId query 5 = .ok (p :: ps))
    (hgen : bedrock.invokeModel cfg.modelId 1000
      (buildPrompt query (buildContext (p :: ps))) = .ok (t :: ts)) :
    query_knowledge_base cfg bedrock query =
      ({ response := t
         source := "knowledge_base"
         confidence := 9/10
         retrieved_count := some (p :: ps).length },
       [.retrieve cfg.knowledgeBaseId query 5,
        .invokeModel cfg.modelId 1000 (buildPrompt query (buildContext (p :: ps)))]) ∧
    (∃ a b c : String, buildPrompt query (buildContext (p :: ps)) =
      (((a ++ query) ++ b) ++ buildContext (p :: ps)) ++ c) ∧
    buildContext (p :: ps) =
      String.intercalate "\n\n" (((p :: ps).enum).map
        (fun q => "Document " ++ toString (q.1 + 1) ++ ": " ++ q.2)) := by
  refine ⟨by simp [query_knowledge_base, hlive, hret, hgen], ?_, rfl⟩
  exact ⟨"Based on the following Timber documentation, answer the user\x27s question: \"",
    "\"\n\nDocumentation:\n",
    "\n\nPlease provide a helpful and accurate answer based on the documentation provided.",
    rfl⟩

/-- Witness for C6 with a backend returning two passages and one
generated segment. -/
theorem C6_live_generation_witness :
    query_knowledge_base liveCfg twoDocBedrock "why is timber down" =
      ({ response := "generated answer"
         source := "knowledge_base"
         confidence := 9/10
         retrieved_count := some (["passage one", "passage two"] : List String).length },
       [.retrieve liveCfg.knowledgeBaseId "why is timber down" 5,
        .invokeModel liveCfg.modelId 1000
          (buildPrompt "why is timber down"
            (buildContext ["passage one", "passage two"]))]) ∧
    (∃ a b c : String, buildPrompt "why is timber down"
        (buildContext ["passage one", "passage two"]) =
      (((a ++ "why is timber down") ++ b) ++
        buildContext ["passage one", "passage two"]) ++ c) ∧
    buildContext ["passage one", "passage two"] =
      String.intercalate "\n\n" ((["passage one", "passage two"].enum).map
        (fun q => "Document " ++ toString (q.1 + 1) ++ ": " ++ q.2)) :=
  C6_live_generation liveCfg twoDocBedrock "why is timber down"
    "passage one" "generated answer" ["passage two"] [] rfl rfl rfl

/-- Unfolding of `handle_request` on a decoded object, exposing the
branch on the method name. -/
theorem handle_request_jobj (cfg : Config) (bedrock : Bedrock)
    (rfields : List (String × JValue)) :
    handle_request cfg bedrock (.jobj rfields) =
      (match (lookupField rfields "method").getD .jnull with
       | .jstr "initialize" =>
         Except.ok (initializeResponse ((lookupField rfields "id").getD .jnull), [])
       | .jstr "tools/list" =>
         Except.ok (toolsListResponse ((lookupField rfields "id").getD .jnull), [])
       | .jstr "tools/call" =>
         (match (lookupField rfields "params").getD (.jobj []) with
          | .jobj pfields =>
            (match (lookupField pfields "name").getD .jnull with
             | .jstr "query_timber_kb" =>
               (match (lookupField pfields "arguments").getD (.jobj []) with
                | .jobj afields =>
                  Except.ok (toolCallSuccessResponse
                    ((lookupField rfields "id").getD .jnull)
                    (query_knowledge_base cfg bedrock
                      (pyFStr ((lookupField afields "query").getD (.jstr "")))).1.response,
                    (query_knowledge_base cfg bedrock
                      (pyFStr ((lookupField afields "query").getD (.jstr "")))).2)
                | _ => Except.error "AttributeError")
             | _ => Except.ok (methodNotFoundResponse
                 ((lookupField rfields "id").getD .jnull)
                 ((lookupField rfields "method").getD .jnull), []))
          | _ => Except.error "AttributeError")
       | _ => Except.ok (methodNotFoundResponse ((lookupField rfields "id").getD .jnull)
           ((lookupField rfields "method").getD .jnull), [])) := rfl

/-- A `tools/call` request whose tool name is `query_timber_kb` and whose
arguments resolve to an object is answered with the success envelope
wrapping the backend answer. -/
theorem handle_request_kb_call (cfg : Config) (bedrock : Bedrock) (idv : JValue)
    (pfields afields : List (String × JValue))
    (hname : (lookupField pfields "name").getD .jnull = .jstr "query_timber_kb")
    (hargs : (lookupField pfields "arguments").getD (.jobj []) = .jobj afields) :
    handle_request cfg bedrock (mkToolsCallReq idv (.jobj pfields)) =
      .ok (toolCallSuccessResponse idv
        (query_knowledge_base cfg bedrock
          (pyFStr ((lookupField afields "query").getD (.jstr "")))).1.response,
        (query_knowledge_base cfg bedrock
          (pyFStr ((lookupField afields "query").getD (.jstr "")))).2) := by
  have h1 : handle_request cfg bedrock (mkToolsCallReq idv (.jobj pfields)) =
      (match (lookupField pfields "name").getD .jnull with
       | .jstr "query_timber_kb" =>
         (match (lookupField pfields "arguments").getD (.jobj []) with
          | .jobj af =>
            Except.ok (toolCallSuccessResponse idv
              (query_knowledge_base cfg bedrock
                (pyFStr ((lookupField af "query").getD (.jstr "")))).1.response,
              (query_knowledge_base cfg bedrock
                (pyFStr ((lookupField af "query").getD (.jstr "")))).2)
          | _ => Except.error "AttributeError")
       | _ => Except.ok (methodNotFoundResponse idv (.jstr "tools/call"), [])) := rfl
  rw [h1, hname, hargs]
  rfl

/-- One session-loop iteration that prints a dispatcher response. -/
theorem processLine_printed (cfg : Config) (bedrock : Bedrock)
    (parseJson : String → Option JValue) (line : String)
    (request response : JValue) (calls : List ExtCall)
    (hne : pyStrip line ≠ "") (hp : parseJson (pyStrip line) = some request)
    (hh : handle_request cfg bedrock request = .ok (response, calls)) :
    processLine cfg bedrock parseJson line = .printed response := by
  simp only [processLine, hne, hp, hh]
  rfl

/-- The session loop prints one line per handled request and goes on. -/
theorem runSession_cons_printed (cfg : Config) (bedrock : Bedrock)
    (parseJson : String → Option JValue) (line : String) (rest : List String)
    (response : JValue)
    (h : processLine cfg bedrock parseJson line = .printed response) :
    runSession cfg bedrock parseJson (line :: rest) =
      (response :: (runSession cfg bedrock parseJson rest).1,
       (runSession cfg bedrock parseJson rest).2) := by
  simp only [runSession, h]

/-- A `tools/call` request naming the unregistered tool
`get_timber_status` (a name the test scripts of the repository send). -/
def unknownToolReq : JValue :=
  mkToolsCallReq (.jnum 7)
    (.jobj [("name", .jstr "get_timber_status"), ("arguments", .jobj [])])

/-- C1 counterexample: the `tools/call` request naming the unregistered
tool `get_timber_status` is answered with the protocol-level
method-not-found error envelope (code -32601): an error payload and no
result payload, refuting the claim that unknown tools get a
tool-not-found indication inside a success envelope. -/
theorem C1_counterexample :
    handle_request simCfg downBedrock unknownToolReq =
      .ok (methodNotFoundResponse (.jnum 7) (.jstr "tools/call"), []) ∧
    hasField (methodNotFoundResponse (.jnum 7) (.jstr "tools/call")) "result" = false ∧
    hasField (methodNotFoundResponse (.jnum 7) (.jstr "tools/call")) "error" = true :=
  ⟨rfl, rfl, rfl⟩

/-- C1 (amended): every `tools/call` request whose params object names
any tool other than `query_timber_kb` falls through the dispatcher to
the default branch and is answered with the protocol-level
method-not-found error (code -32601) echoing the request id. -/
theorem C1_unknown_tool_method_not_found (cfg : Config) (bedrock : Bedrock)
    (idv : JValue) (pfields : List (String × JValue))
    (hname : (lookupField pfields "name").getD .jnull ≠ .jstr "query_timber_kb") :
    handle_request cfg bedrock (mkToolsCallReq idv (.jobj pfields)) =
      .ok (methodNotFoundResponse idv (.jstr "tools/call"), []) := by
  have h1 : handle_request cfg bedrock (mkToolsCallReq idv (.jobj pfields)) =
      (match (lookupField pfields "name").getD .jnull with
       | .jstr "query_timber_kb" =>
         (match (lookupField pfields "arguments").getD (.jobj []) with
          | .jobj af =>
            Except.ok (toolCallSuccessResponse idv
              (query_knowledge_base cfg bedrock
                (pyFStr ((lookupField af "query").getD (.jstr "")))).1.response,
              (query_knowledge_base cfg bedrock
                (pyFStr ((lookupField af "query").getD (.jstr "")))).2)
          | _ => Except.error "AttributeError")
       | _ => Except.ok (methodNotFoundResponse idv (.jstr "tools/call"), [])) := rfl
  rw [h1]
  split
  · rename_i h
    exact absurd h hname
  · rfl

/-- Witness for C1 (amended) at the tool name `other_tool`. -/
theorem C1_unknown_tool_method_not_found_witness :
    handle_request simCfg downBedrock
      (mkToolsCallReq (.jnum 8) (.jobj [("name", .jstr "other_tool")])) =
      .ok (methodNotFoundResponse (.jnum 8) (.jstr "tools/call"), []) :=
  C1_unknown_tool_method_not_found simCfg downBedrock (.jnum 8)
    [("name", .jstr "other_tool")] (by simp [lookupField])

/-- The `json.loads` oracle for the C2 evaluation: the line `5` decodes
to the number 5 (valid JSON that is not an object); any other line
raises `JSONDecodeError`. -/
def c2Parse : String → Option JValue := fun s =>
  if s = "5" then some (.jnum 5) else none

/-- C2 (evaluation of the code at the failing input): on the input line
`5` — valid JSON that is not an object — `handle_request` raises
`AttributeError`, and the generic exception handler raises again while
recovering the id (`request.get` on a non-dict), so the fault escapes to
the outer handler, `sys.exit(1)` runs, and the following line is never
processed.  This refutes the loop-never-terminates claim that the
handler (guarding with the locals check precisely to answer with an
internal error and continue) was written to satisfy. -/
theorem C2_crash_on_non_object_line :
    processLine simCfg downBedrock c2Parse "5" = .crashed ∧
    runSession simCfg downBedrock c2Parse ["5", "junk"] = ([], false) :=
  ⟨rfl, rfl⟩

/-- The JSON text of a `tools/call` request naming `query_timber_kb`
whose `arguments` value is the number 5, not an object. -/
def badArgsLine : String :=
  "\x7b\"id\": 3, \"method\": \"tools/call\", \"params\": \x7b\"name\": \"query_timber_kb\", \"arguments\": 5\x7d\x7d"

/-- The decoded value of `badArgsLine`. -/
def badArgsReq : JValue :=
  mkToolsCallReq (.jnum 3)
    (.jobj [("name", .jstr "query_timber_kb"), ("arguments", .jnum 5)])

/-- The `json.loads` oracle restricted to the C3 counterexample line. -/
def badArgsParse : String → Option JValue := fun s =>
  if s = badArgsLine then some badArgsReq else none

/-- C3 counterexample: on a `tools/call` request naming `query_timber_kb`
whose `arguments` is the number 5, `arguments.get` raises inside the
dispatcher, which therefore produces no response; the session loop
answers with the protocol-level internal-error envelope (code -32603) —
an error payload, not a success envelope with `isError` false. -/
theorem C3_counterexample :
    handle_request simCfg downBedrock badArgsReq = .error "AttributeError" ∧
    processLine simCfg downBedrock badArgsParse badArgsLine =
      .printed (internalErrorResponse (.jnum 3)) ∧
    hasField (internalErrorResponse (.jnum 3)) "result" = false ∧
    hasField (internalErrorResponse (.jnum 3)) "error" = true :=
  ⟨rfl, rfl, rfl, rfl⟩

/-- C3 (amended): every `tools/call` request naming `query_timber_kb`
whose `arguments` parameter resolves to an object (absent, hence the
empty default, or present as an object) is answered with the success
envelope — `isError` false — wrapping the backend answer text, in both
modes; and any backend exception, during retrieval or during generation,
is converted to an Answer Record with provenance `error`, confidence 0.0
and the error description in the answer text. -/
theorem C3_registered_tool_success (cfg : Config) (bedrock : Bedrock)
    (idv : JValue) (pfields afields : List (String × JValue))
    (hname : (lookupField pfields "name").getD .jnull = .jstr "query_timber_kb")
    (hargs : (lookupField pfields "arguments").getD (.jobj []) = .jobj afields) :
    handle_request cfg bedrock (mkToolsCallReq idv (.jobj pfields)) =
      .ok (toolCallSuccessResponse idv
        (query_knowledge_base cfg bedrock
          (pyFStr ((lookupField afields "query").getD (.jstr "")))).1.response,
        (query_knowledge_base cfg bedrock
          (pyFStr ((lookupField afields "query").getD (.jstr "")))).2) ∧
    (∀ query e, cfg.localMode = false →
      bedrock.retrieve cfg.knowledgeBaseId query 5 = .error e →
      (query_knowledge_base cfg bedrock query).1 = errorAnswer e) ∧
    (∀ query e p ps, cfg.localMode = false →
      bedrock.retrieve cfg.knowledgeBaseId query 5 = .ok (p :: ps) →
      bedrock.invokeModel cfg.modelId 1000
        (buildPrompt query (buildContext (p :: ps))) = .error e →
      (query_knowledge_base cfg bedrock query).1 = errorAnswer e) := by
  refine ⟨handle_request_kb_call cfg bedrock idv pfields afields hname hargs, ?_, ?_⟩
  · intro query e hlive herr
    simp [query_knowledge_base, hlive, herr]
  · intro query e p ps hlive hret hgen
    simp [query_knowledge_base, hlive, hret, hgen]

/-- Witness for C3 (amended): live mode with a backend whose retrieval
raises; the dispatcher still answers with the success envelope. -/
theorem C3_registered_tool_success_witness :
    handle_request liveCfg downBedrock
      (mkToolsCallReq (.jnum 2)
        (.jobj [("name", .jstr "query_timber_kb"),
                ("arguments", .jobj [("query", .jstr "ping")])])) =
      .ok (toolCallSuccessResponse (.jnum 2)
        (query_knowledge_base liveCfg downBedrock
          (pyFStr ((lookupField [("query", JValue.jstr "ping")] "query").getD
            (.jstr "")))).1.response,
        (query_knowledge_base liveCfg downBedrock
          (pyFStr ((lookupField [("query", JValue.jstr "ping")] "query").getD
            (.jstr "")))).2) :=
  (C3_registered_tool_success liveCfg downBedrock (.jnum 2)
    [("name", .jstr "query_timber_kb"), ("arguments", .jobj [("query", .jstr "ping")])]
    [("query", .jstr "ping")] rfl rfl).1

/-- C7: an input line whose stripped text is non-blank and does not parse
is answered with the parse-error envelope — code -32700, correlation id
null — and the loop goes on to the remaining lines. -/
theorem C7_parse_error (cfg : Config) (bedrock : Bedrock)
    (parseJson : String → Option JValue) (line : String) (rest : List String)
    (hne : pyStrip line ≠ "") (hp : parseJson (pyStrip line) = none) :
    processLine cfg bedrock parseJson line = .printed parseErrorResponse ∧
    runSession cfg bedrock parseJson (line :: rest) =
      (parseErrorResponse :: (runSession cfg bedrock parseJson rest).1,
       (runSession cfg bedrock parseJson rest).2) ∧
    parseErrorResponse =
      .jobj [("jsonrpc", .jstr "2.0"), ("id", .jnull),
             ("error", .jobj [("code", .jnum (-32700)),
                              ("message", .jstr "Parse error")])] := by
  have hpl : processLine cfg bedrock parseJson line = .printed parseErrorResponse := by
    simp only [processLine, hne, hp]
    rfl
  exact ⟨hpl, runSession_cons_printed cfg bedrock parseJson line rest _ hpl, rfl⟩

/-- A `json.loads` oracle under which no line parses. -/
def failParse : String → Option JValue := fun _ => none

/-- Witness for C7 at the unparsable line `:::`. -/
theorem C7_parse_error_witness :
    processLine simCfg downBedrock failParse ":::" = .printed parseErrorResponse ∧
    runSession simCfg downBedrock failParse [":::", "junk"] =
      (parseErrorResponse :: (runSession simCfg downBedrock failParse ["junk"]).1,
       (runSession simCfg downBedrock failParse ["junk"]).2) ∧
    parseErrorResponse =
      .jobj [("jsonrpc", .jstr "2.0"), ("id", .jnull),
             ("error", .jobj [("code", .jnum (-32700)),
                              ("message", .jstr "Parse error")])] :=
  C7_parse_error simCfg downBedrock failParse ":::" ["junk"] (by decide) rfl

/-- C8: every decoded request object whose method is not one of
`initialize`, `tools/list`, `tools/call` — including one with no method
field at all, whose method reads back as null — is answered with the
protocol-level method-not-found error (code -32601) echoing the
request id. -/
theorem C8_method_not_found (cfg : Config) (bedrock : Bedrock)
    (rfields : List (String × JValue))
    (hm : ∀ s : String, (lookupField rfields "method").getD .jnull = .jstr s →
      s ≠ "initialize" ∧ s ≠ "tools/list" ∧ s ≠ "tools/call") :
    handle_request cfg bedrock (.jobj rfields) =
      .ok (methodNotFoundResponse ((lookupField rfields "id").getD .jnull)
        ((lookupField rfields "method").getD .jnull), []) := by
  rw [handle_request_jobj]
  split
  · rename_i h
    exact absurd rfl (hm "initialize" h).1
  · rename_i h
    exact absurd rfl (hm "tools/list" h).2.1
  · rename_i h
    exact absurd rfl (hm "tools/call" h).2.2
  · rfl

/-- Witness for C8 at the unknown method `ping` (and id 9). -/
theorem C8_method_not_found_witness :
    handle_request simCfg downBedrock
      (.jobj [("id", .jnum 9), ("method", .jstr "ping")]) =
      .ok (methodNotFoundResponse
        ((lookupField [("id", JValue.jnum 9), ("method", JValue.jstr "ping")] "id").getD
          .jnull)
        ((lookupField [("id", JValue.jnum 9), ("method", JValue.jstr "ping")] "method").getD
          .jnull), []) :=
  C8_method_not_found simCfg downBedrock
    [("id", .jnum 9), ("method", .jstr "ping")]
    (fun s h => by
      have h2 : "ping" = s := JValue.jstr.inj h
      subst h2
      exact ⟨by decide, by decide, by decide⟩)

/-- C9: two identical `tools/list` lines in one session print identical
result payloads, both equal to the fixed `toolsListResponse` computed
from the static registry `tools`, which no operation mutates. -/
theorem C9_tools_list_idempotent (cfg : Config) (bedrock : Bedrock)
    (parseJson : String → Option JValue) (line : String) (rest : List String)
    (rfields : List (String × JValue))
    (hne : pyStrip line ≠ "")
    (hp : parseJson (pyStrip line) = some (.jobj rfields))
    (hm : (lookupField rfields "method").getD .jnull = .jstr "tools/list") :
    ∃ payload : JValue,
      payload = toolsListResponse ((lookupField rfields "id").getD .jnull) ∧
      (runSession cfg bedrock parseJson (line :: line :: rest)).1 =
        payload :: payload :: (runSession cfg bedrock parseJson rest).1 := by
  have hhr : handle_request cfg bedrock (.jobj rfields) =
      .ok (toolsListResponse ((lookupField rfields "id").getD .jnull), []) := by
    rw [handle_request_jobj, hm]
    rfl
  have hpl := processLine_printed cfg bedrock parseJson line (.jobj rfields)
    (toolsListResponse ((lookupField rfields "id").getD .jnull)) [] hne hp hhr
  refine ⟨toolsListResponse ((lookupField rfields "id").getD .jnull), rfl, ?_⟩
  rw [runSession_cons_printed cfg bedrock parseJson line (line :: rest) _ hpl,
      runSession_cons_printed cfg bedrock parseJson line rest _ hpl]

/-- The JSON text of a `tools/list` request with id 1. -/
def toolsListLine : String := "\x7b\"id\": 1, \"method\": \"tools/list\"\x7d"

/-- The `json.loads` oracle restricted to `toolsListLine`. -/
def toolsListParse : String → Option JValue := fun s =>
  if s = toolsListLine then
    some (.jobj [("id", .jnum 1), ("method", .jstr "tools/list")])
  else none

/-- Witness for C9: the same `tools/list` line sent twice. -/
theorem C9_tools_list_idempotent_witness :
    ∃ payload : JValue,
      payload = toolsListResponse
        ((lookupField [("id", JValue.jnum 1), ("method", JValue.jstr "tools/list")]
          "id").getD .jnull) ∧
      (runSession simCfg downBedrock toolsListParse
        [toolsListLine, toolsListLine, "junk"]).1 =
        payload :: payload ::
          (runSession simCfg downBedrock toolsListParse ["junk"]).1 :=
  C9_tools_list_idempotent simCfg downBedrock toolsListParse toolsListLine
    ["junk"] [("id", .jnum 1), ("method", .jstr "tools/list")]
    (by decide) rfl rfl

/-- C10: a `tools/call` request naming `query_timber_kb` whose params
omit the `arguments` key, or whose arguments object omits the `query`
key, is not rejected and the declared required field is not enforced:
the dispatcher substitutes the empty string, invokes the backend with
it, and returns the success envelope. -/
theorem C10_missing_query_defaults_empty (cfg : Config) (bedrock : Bedrock)
    (idv : JValue) (pfields : List (String × JValue))
    (hname : (lookupField pfields "name").getD .jnull = .jstr "query_timber_kb")
    (hargs : lookupField pfields "arguments" = none ∨
      ∃ afields, lookupField pfields "arguments" = some (.jobj afields) ∧
        lookupField afields "query" = none) :
    handle_request cfg bedrock (mkToolsCallReq idv (.jobj pfields)) =
      .ok (toolCallSuccessResponse idv
        (query_knowledge_base cfg bedrock "").1.response,
        (query_knowledge_base cfg bedrock "").2) := by
  rcases hargs with h | ⟨afields, h, hq⟩
  · have hkb := handle_request_kb_call cfg bedrock idv pfields [] hname
      (by rw [h]; rfl)
    rw [hkb]
    rfl
  · have hkb := handle_request_kb_call cfg bedrock idv pfields afields hname
      (by rw [h]; rfl)
    rw [hkb, hq]
    rfl

/-- Witness for C10 at a request with no `arguments` at all. -/
theorem C10_missing_query_defaults_empty_witness :
    handle_request simCfg downBedrock
      (mkToolsCallReq (.jnum 4) (.jobj [("name", .jstr "query_timber_kb")])) =
      .ok (toolCallSuccessResponse (.jnum 4)
        (query_knowledge_base simCfg downBedrock "").1.response,
        (query_knowledge_base simCfg downBedrock "").2) :=
  C10_missing_query_defaults_empty simCfg downBedrock (.jnum 4)
    [("name", .jstr "query_timber_kb")] rfl (Or.inl rfl)

end Timber
